import Mathlib

/-!
Verification of the pricing engine of the HYD Builder quote generator
(src/app.py).

The only domain logic is the function calculate_quote (app.py, lines
79-112), which turns a catalog of unit rates (the module-level dict
SAMPLE_RATES, read through SAMPLE_RATES.get(name, 0)), an ordered list of
selections (dicts with keys "name" and "qty"), a mapping of flat extra
charges, and a discount percentage into a quote computation: rows, extras,
subtotal, discount_amt, taxable, gst_amt and grand_total, with the tax
rate fixed by the module constant GST_PERCENT = 18.

Monetary values and quantities are modelled as rationals; Python dicts
used as catalogs and extras mappings are modelled as insertion-ordered
association lists with unique keys, and dict.get(k, 0) as a first-match
lookup defaulting to 0.
-/

/-- A line selection: item name and quantity.  The Quote Builder form
(app.py, line 269) builds each selection as a dict with keys "name" and
"qty"; calculate_quote also reads an optional "unit" key (line 85) that it
never uses afterwards, so it is omitted here. -/
structure Selection where
  name : String
  qty : ℚ
  deriving DecidableEq, Repr

/-- A computed line row, as appended by calculate_quote (app.py, lines
88-93): the dict with keys "Item", "Qty", "Unit Price" and "Total". -/
structure Row where
  item : String
  qty : ℚ
  unitPrice : ℚ
  total : ℚ
  deriving DecidableEq, Repr

/-- The dict returned by calculate_quote (app.py, lines 104-112). -/
structure QuoteComputation where
  rows : List Row
  extras : List (String × ℚ)
  subtotal : ℚ
  discount_amt : ℚ
  taxable : ℚ
  gst_amt : ℚ
  grand_total : ℚ
  deriving DecidableEq, Repr

/-- Python dict lookup d.get(k, 0) over an insertion-ordered association
list: the value at the first matching key, 0 when the key is absent
(app.py, lines 75 and 86 use SAMPLE_RATES.get(name, 0)). -/
def dictGet (d : List (String × ℚ)) (k : String) : ℚ :=
  match d.find? (fun p => p.1 == k) with
  | some p => p.2
  | none => 0

/-- The module constant GST_PERCENT = 18 (app.py, line 36). -/
def GST_PERCENT : ℚ := 18

/-- One iteration of the loop in calculate_quote (app.py, lines 82-94):
look the rate up with SAMPLE_RATES.get(name, 0), compute total = rate *
qty, append the row, and add total into the running subtotal. -/
def quoteStep (rates : List (String × ℚ)) (acc : List Row × ℚ) (it : Selection) :
    List Row × ℚ :=
  let rate := dictGet rates it.name
  let total := rate * it.qty
  (acc.1 ++ [{ item := it.name, qty := it.qty, unitPrice := rate, total := total }],
   acc.2 + total)

/-- calculate_quote (app.py, lines 79-112).  The Python function reads the
global SAMPLE_RATES; here the catalog snapshot is the explicit first
argument.  The loop over selected_items starts from rows = [] and
subtotal = 0; then extras_total = sum(extras.values()) (0 for an empty
dict, which sum over an empty list also gives), subtotal += extras_total,
discount_amt = subtotal * (discount_percent / 100), taxable = subtotal -
discount_amt, gst_amt = taxable * GST_PERCENT / 100, and grand_total =
taxable + gst_amt. -/
def calculate_quote (rates : List (String × ℚ)) (selected_items : List Selection)
    (extras : List (String × ℚ)) (discount_percent : ℚ) : QuoteComputation :=
  let rs := selected_items.foldl (quoteStep rates) ([], 0)
  let extras_total := (extras.map Prod.snd).sum
  let subtotal := rs.2 + extras_total
  let discount_amt := subtotal * (discount_percent / 100)
  let taxable := subtotal - discount_amt
  let gst_amt := taxable * GST_PERCENT / 100
  let grand_total := taxable + gst_amt
  { rows := rs.1
    extras := extras
    subtotal := subtotal
    discount_amt := discount_amt
    taxable := taxable
    gst_amt := gst_amt
    grand_total := grand_total }

/-- The row that the loop body of calculate_quote builds for one
selection (app.py, lines 86-93). -/
def lineRow (rates : List (String × ℚ)) (it : Selection) : Row :=
  { item := it.name
    qty := it.qty
    unitPrice := dictGet rates it.name
    total := dictGet rates it.name * it.qty }

/-- The line total rate * qty for one selection (app.py, line 87). -/
def lineTotal (rates : List (String × ℚ)) (it : Selection) : ℚ :=
  dictGet rates it.name * it.qty

/-- The selection list built by the Quote Builder form (app.py, lines
261-269): it walks the catalog in order and appends a selection only when
its checkbox is ticked and the entered quantity is strictly positive
(line 268: if the item is ticked and qty > 0). -/
def uiSelections (rates : List (String × ℚ)) (ticked : String → Bool)
    (qtyOf : String → ℚ) : List Selection :=
  (rates.filter (fun p => ticked p.1 && decide (0 < qtyOf p.1))).map
    (fun p => { name := p.1, qty := qtyOf p.1 })

/-- The body rows of the itemized table laid out by generate_pdf_bytes
(app.py, lines 145-152): one display row per computed item row, in order,
followed by one display row per extra charge, in mapping order; the Qty
and Unit Price cells of an extra charge hold a dash, modelled as none.
The Python guard "if quote_calc[extras]" only skips an empty loop, so the
unguarded append over the extras list is the same function. -/
def pdfTableRows (q : QuoteComputation) : List (String × Option ℚ × Option ℚ × ℚ) :=
  q.rows.map (fun r => (r.item, some r.qty, some r.unitPrice, r.total))
    ++ q.extras.map (fun e => (e.1, none, none, e.2))

/-- The module-level mutable state that calculate_quote reads: the global
SAMPLE_RATES dict (app.py, line 25), which the Admin page may rewrite
between calls. -/
structure AppState where
  sample_rates : List (String × ℚ)
  deriving DecidableEq, Repr

/-- State-passing embedding of calculate_quote: the body of the Python
function only reads the global SAMPLE_RATES (line 86) and assigns no
global and no element of its arguments, so the ambient state threads
through unchanged. -/
def calculate_quoteSt (st : AppState) (selected_items : List Selection)
    (extras : List (String × ℚ)) (discount_percent : ℚ) :
    QuoteComputation × AppState :=
  (calculate_quote st.sample_rates selected_items extras discount_percent, st)

/-! Helper lemmas about the loop and the lookup. -/

/-- The loop of calculate_quote, run from any accumulator: it appends one
row per selection, in order, and adds the line totals into the running
subtotal. -/
theorem foldl_quoteStep (rates : List (String × ℚ)) (l : List Selection)
    (a : List Row) (s : ℚ) :
    l.foldl (quoteStep rates) (a, s) =
      (a ++ l.map (lineRow rates), s + (l.map (lineTotal rates)).sum) := by
  induction l generalizing a s with
  | nil => simp
  | cons it rest ih =>
    simp only [List.foldl_cons, quoteStep, List.map_cons, List.sum_cons]
    rw [ih]
    simp [lineRow, lineTotal, add_assoc]

theorem calculate_quote_rows (rates : List (String × ℚ)) (sels : List Selection)
    (extras : List (String × ℚ)) (dp : ℚ) :
    (calculate_quote rates sels extras dp).rows = sels.map (lineRow rates) := by
  simp [calculate_quote, foldl_quoteStep]

theorem calculate_quote_extras_eq (rates : List (String × ℚ)) (sels : List Selection)
    (extras : List (String × ℚ)) (dp : ℚ) :
    (calculate_quote rates sels extras dp).extras = extras := by
  simp [calculate_quote]

theorem calculate_quote_subtotal (rates : List (String × ℚ)) (sels : List Selection)
    (extras : List (String × ℚ)) (dp : ℚ) :
    (calculate_quote rates sels extras dp).subtotal =
      (sels.map (lineTotal rates)).sum + (extras.map Prod.snd).sum := by
  simp [calculate_quote, foldl_quoteStep]

theorem calculate_quote_discount (rates : List (String × ℚ)) (sels : List Selection)
    (extras : List (String × ℚ)) (dp : ℚ) :
    (calculate_quote rates sels extras dp).discount_amt =
      (calculate_quote rates sels extras dp).subtotal * (dp / 100) := by
  simp [calculate_quote]

theorem calculate_quote_taxable (rates : List (String × ℚ)) (sels : List Selection)
    (extras : List (String × ℚ)) (dp : ℚ) :
    (calculate_quote rates sels extras dp).taxable =
      (calculate_quote rates sels extras dp).subtotal -
        (calculate_quote rates sels extras dp).discount_amt := by
  simp [calculate_quote]

theorem calculate_quote_gst (rates : List (String × ℚ)) (sels : List Selection)
    (extras : List (String × ℚ)) (dp : ℚ) :
    (calculate_quote rates sels extras dp).gst_amt =
      (calculate_quote rates sels extras dp).taxable * GST_PERCENT / 100 := by
  simp [calculate_quote]

theorem calculate_quote_grand (rates : List (String × ℚ)) (sels : List Selection)
    (extras : List (String × ℚ)) (dp : ℚ) :
    (calculate_quote rates sels extras dp).grand_total =
      (calculate_quote rates sels extras dp).taxable +
        (calculate_quote rates sels extras dp).gst_amt := by
  simp [calculate_quote]

theorem dictGet_nonneg (d : List (String × ℚ)) (k : String)
    (h : ∀ p ∈ d, 0 ≤ p.2) : 0 ≤ dictGet d k := by
  cases hf : d.find? (fun p => p.1 == k) with
  | none => simp [dictGet, hf]
  | some p => simpa [dictGet, hf] using h p (List.mem_of_find?_eq_some hf)

theorem dictGet_eq_zero (d : List (String × ℚ)) (k : String)
    (h : ∀ p ∈ d, p.2 = 0) : dictGet d k = 0 := by
  cases hf : d.find? (fun p => p.1 == k) with
  | none => simp [dictGet, hf]
  | some p => simpa [dictGet, hf] using h p (List.mem_of_find?_eq_some hf)

theorem dictGet_absent (d : List (String × ℚ)) (k : String)
    (h : ∀ p ∈ d, p.1 ≠ k) : dictGet d k = 0 := by
  have hf : d.find? (fun p => p.1 == k) = none := by
    rw [List.find?_eq_none]
    intro p hp
    simpa using h p hp
  simp [dictGet, hf]

/-! Claim theorems. -/

/-- C1: for every QuoteComputation produced by calculate_quote, the
pricing identities hold: subtotal is the sum of the line totals (each line
total being unit price times quantity) plus the sum of the extra charges,
discount_amt is subtotal times the discount percentage over 100, taxable
is subtotal minus discount_amt, gst_amt is GST_PERCENT percent of the
taxable amount computed once (never compounded, never per line), and
grand_total is taxable plus gst_amt, which equals
(subtotal - discount_amt) * (1 + GST_PERCENT / 100). -/
theorem C1_pricing_identities (rates : List (String × ℚ)) (sels : List Selection)
    (extras : List (String × ℚ)) (dp : ℚ) :
    (calculate_quote rates sels extras dp).subtotal =
        ((calculate_quote rates sels extras dp).rows.map Row.total).sum
          + (extras.map Prod.snd).sum
    ∧ (calculate_quote rates sels extras dp).rows.map Row.total =
        (calculate_quote rates sels extras dp).rows.map (fun r => r.unitPrice * r.qty)
    ∧ (calculate_quote rates sels extras dp).discount_amt =
        (calculate_quote rates sels extras dp).subtotal * dp / 100
    ∧ (calculate_quote rates sels extras dp).taxable =
        (calculate_quote rates sels extras dp).subtotal -
          (calculate_quote rates sels extras dp).discount_amt
    ∧ (calculate_quote rates sels extras dp).gst_amt =
        (calculate_quote rates sels extras dp).taxable * GST_PERCENT / 100
    ∧ (calculate_quote rates sels extras dp).grand_total =
        (calculate_quote rates sels extras dp).taxable +
          (calculate_quote rates sels extras dp).gst_amt
    ∧ (calculate_quote rates sels extras dp).grand_total =
        ((calculate_quote rates sels extras dp).subtotal -
            (calculate_quote rates sels extras dp).discount_amt)
          * (1 + GST_PERCENT / 100) := by
  refine ⟨?_, ?_, ?_, calculate_quote_taxable rates sels extras dp,
    calculate_quote_gst rates sels extras dp,
    calculate_quote_grand rates sels extras dp, ?_⟩
  · rw [calculate_quote_subtotal, calculate_quote_rows, List.map_map]
    have h : Row.total ∘ lineRow rates = lineTotal rates := rfl
    rw [h]
  · rw [calculate_quote_rows, List.map_map, List.map_map]
    have h : Row.total ∘ lineRow rates =
        (fun r => r.unitPrice * r.qty) ∘ lineRow rates := rfl
    rw [h]
  · rw [calculate_quote_discount, mul_div_assoc]
  · rw [calculate_quote_grand, calculate_quote_gst, calculate_quote_taxable]
    ring

/-- C4: the two worked examples from the spec.  With catalog rate 420 for
Cement, one selection of Cement with quantity 10, extras carrying a
Design Fee of 1000 and a 10 percent discount: subtotal 5200, discount
520, taxable 4680, tax 842.4, grand total 5522.4.  With empty extras and
0 percent discount: subtotal 4200, discount 0, taxable 4200, tax 756,
grand total 4956. -/
theorem C4_worked_examples :
    ((calculate_quote [("Cement", 420)] [{ name := "Cement", qty := 10 }]
        [("Design Fee", 1000)] 10).subtotal = 5200
      ∧ (calculate_quote [("Cement", 420)] [{ name := "Cement", qty := 10 }]
          [("Design Fee", 1000)] 10).discount_amt = 520
      ∧ (calculate_quote [("Cement", 420)] [{ name := "Cement", qty := 10 }]
          [("Design Fee", 1000)] 10).taxable = 4680
      ∧ (calculate_quote [("Cement", 420)] [{ name := "Cement", qty := 10 }]
          [("Design Fee", 1000)] 10).gst_amt = 842.4
      ∧ (calculate_quote [("Cement", 420)] [{ name := "Cement", qty := 10 }]
          [("Design Fee", 1000)] 10).grand_total = 5522.4)
    ∧ ((calculate_quote [("Cement", 420)] [{ name := "Cement", qty := 10 }] [] 0).subtotal
          = 4200
      ∧ (calculate_quote [("Cement", 420)] [{ name := "Cement", qty := 10 }] [] 0).discount_amt
          = 0
      ∧ (calculate_quote [("Cement", 420)] [{ name := "Cement", qty := 10 }] [] 0).taxable
          = 4200
      ∧ (calculate_quote [("Cement", 420)] [{ name := "Cement", qty := 10 }] [] 0).gst_amt
          = 756
      ∧ (calculate_quote [("Cement", 420)] [{ name := "Cement", qty := 10 }] [] 0).grand_total
          = 4956) := by
  norm_num [calculate_quote, quoteStep, dictGet, GST_PERCENT]

/-- C9: calculate_quote emits exactly one row per input selection, in
order: the row count equals the selection count and the i-th row carries
the name and quantity of the i-th selection, also for quantity 0 and for names
absent from the catalog. -/
theorem C9_one_row_per_selection (rates : List (String × ℚ)) (sels : List Selection)
    (extras : List (String × ℚ)) (dp : ℚ) :
    (calculate_quote rates sels extras dp).rows.length = sels.length
    ∧ (calculate_quote rates sels extras dp).rows.map (fun r => (r.item, r.qty)) =
        sels.map (fun it => (it.name, it.qty)) := by
  constructor
  · rw [calculate_quote_rows]
    exact List.length_map sels (lineRow rates)
  · rw [calculate_quote_rows, List.map_map]
    simp [Function.comp, lineRow]

/-- C8: the rows of the QuoteComputation follow the order of the input
selection list, and in the PDF table the extra charges appear after all
item rows, in the order of the extras mapping. -/
theorem C8_row_order (rates : List (String × ℚ)) (sels : List Selection)
    (extras : List (String × ℚ)) (dp : ℚ) :
    (calculate_quote rates sels extras dp).rows = sels.map (lineRow rates)
    ∧ (calculate_quote rates sels extras dp).rows.map Row.item = sels.map Selection.name
    ∧ (calculate_quote rates sels extras dp).extras = extras
    ∧ pdfTableRows (calculate_quote rates sels extras dp) =
        sels.map (fun it => (it.name, some it.qty, some (dictGet rates it.name),
          dictGet rates it.name * it.qty))
          ++ extras.map (fun e => (e.1, none, none, e.2)) := by
  refine ⟨calculate_quote_rows rates sels extras dp, ?_,
    calculate_quote_extras_eq rates sels extras dp, ?_⟩
  · rw [calculate_quote_rows, List.map_map]
    simp [Function.comp, lineRow]
  · rw [pdfTableRows, calculate_quote_rows, calculate_quote_extras_eq, List.map_map]
    simp [Function.comp, lineRow]

/-- C10: calculate_quote leaves its inputs unchanged.  In the
state-passing embedding the ambient state (the global SAMPLE_RATES
catalog) comes back exactly as it went in, the extras field of the result
is the extras mapping that was passed, and the result is the pure
function of the inputs. -/
theorem C10_inputs_unchanged (st : AppState) (sels : List Selection)
    (extras : List (String × ℚ)) (dp : ℚ) :
    (calculate_quoteSt st sels extras dp).2 = st
    ∧ (calculate_quoteSt st sels extras dp).1.extras = extras
    ∧ (calculate_quoteSt st sels extras dp).1 =
        calculate_quote st.sample_rates sels extras dp :=
  ⟨rfl, calculate_quote_extras_eq st.sample_rates sels extras dp, rfl⟩

/-- C2 counterexample: the claim says a selection with quantity 0
produces no row at all, but calculate_quote appends a row for every
selection; with one Cement selection of quantity 0 the result has one
row, not none. -/
theorem C2_zero_qty_row_counterexample :
    (calculate_quote [("Cement", 420)] [{ name := "Cement", qty := 0 }] [] 0).rows
        = [{ item := "Cement", qty := 0, unitPrice := 420, total := 0 }]
    ∧ (calculate_quote [("Cement", 420)] [{ name := "Cement", qty := 0 }] [] 0).rows
        ≠ [] := by
  constructor
  · norm_num [calculate_quote, quoteStep, dictGet]
  · norm_num [calculate_quote, quoteStep, dictGet]

/-- C2 (amended): calculate_quote itself emits a row for every selection,
a quantity-0 selection included (the row then has line total 0); the
dropping of zero-quantity items happens upstream, in the Quote Builder
form, which only appends a selection when it is ticked and its quantity
is strictly positive, so every row of a quote computed over a form-built
selection list has positive quantity. -/
theorem C2_zero_qty_amended (rates : List (String × ℚ)) (sels : List Selection)
    (extras : List (String × ℚ)) (dp : ℚ) (ticked : String → Bool)
    (qtyOf : String → ℚ) (it : Selection) (hmem : it ∈ sels) (hq : it.qty = 0) :
    (lineRow rates it ∈ (calculate_quote rates sels extras dp).rows
      ∧ (lineRow rates it).qty = 0 ∧ (lineRow rates it).total = 0)
    ∧ ∀ r ∈ (calculate_quote rates (uiSelections rates ticked qtyOf) extras dp).rows,
        0 < r.qty := by
  refine ⟨⟨?_, ?_, ?_⟩, ?_⟩
  · rw [calculate_quote_rows]
    exact List.mem_map_of_mem (lineRow rates) hmem
  · simpa [lineRow] using hq
  · simp [lineRow, hq]
  · intro r hr
    rw [calculate_quote_rows] at hr
    obtain ⟨it2, hit2, rfl⟩ := List.mem_map.mp hr
    simp only [uiSelections, List.mem_map] at hit2
    obtain ⟨p, hp, rfl⟩ := hit2
    have hf := (List.mem_filter.mp hp).2
    simp only [Bool.and_eq_true, decide_eq_true_eq] at hf
    simpa [lineRow] using hf.2

/-- C2 witness: the amended claim at the concrete input of the
counterexample. -/
theorem C2_zero_qty_amended_witness :
    (({ name := "Cement", qty := 0 } : Selection) ∈
        [({ name := "Cement", qty := 0 } : Selection)]
      ∧ ({ name := "Cement", qty := 0 } : Selection).qty = 0)
    ∧ ((lineRow [("Cement", 420)] { name := "Cement", qty := 0 } ∈
          (calculate_quote [("Cement", 420)] [{ name := "Cement", qty := 0 }] [] 0).rows
        ∧ (lineRow [("Cement", 420)] { name := "Cement", qty := 0 }).qty = 0
        ∧ (lineRow [("Cement", 420)] { name := "Cement", qty := 0 }).total = 0)
      ∧ ∀ r ∈ (calculate_quote [("Cement", 420)]
            (uiSelections [("Cement", 420)] (fun _ => true) (fun _ => 0)) [] 0).rows,
          0 < r.qty) :=
  ⟨⟨List.mem_singleton.mpr rfl, rfl⟩,
    C2_zero_qty_amended [("Cement", 420)] [{ name := "Cement", qty := 0 }] [] 0
      (fun _ => true) (fun _ => 0) { name := "Cement", qty := 0 }
      (List.mem_singleton.mpr rfl) rfl⟩

/-- C3: a selection whose item name is absent from the catalog is priced
at zero: its row has unit price 0 and line total 0, and calculate_quote,
a total function, returns normally. -/
theorem C3_unknown_item_zero (rates : List (String × ℚ)) (sels : List Selection)
    (extras : List (String × ℚ)) (dp : ℚ) (r : Row)
    (hr : r ∈ (calculate_quote rates sels extras dp).rows)
    (habs : ∀ p ∈ rates, p.1 ≠ r.item) :
    r.unitPrice = 0 ∧ r.total = 0 := by
  rw [calculate_quote_rows] at hr
  obtain ⟨it, hit, rfl⟩ := List.mem_map.mp hr
  have h0 : dictGet rates it.name = 0 :=
    dictGet_absent rates it.name (by simpa [lineRow] using habs)
  simp [lineRow, h0]

/-- C3 witness: the unknown item "Paint" against a catalog holding only
"Cement" prices at zero. -/
theorem C3_unknown_item_zero_witness :
    (({ item := "Paint", qty := 3, unitPrice := 0, total := 0 } : Row) ∈
        (calculate_quote [("Cement", 420)] [{ name := "Paint", qty := 3 }] [] 0).rows
      ∧ (∀ p ∈ [(("Cement" : String), (420 : ℚ))], p.1 ≠ "Paint"))
    ∧ (({ item := "Paint", qty := 3, unitPrice := 0, total := 0 } : Row).unitPrice = 0
      ∧ ({ item := "Paint", qty := 3, unitPrice := 0, total := 0 } : Row).total = 0) := by
  have hmem : ({ item := "Paint", qty := 3, unitPrice := 0, total := 0 } : Row) ∈
      (calculate_quote [("Cement", 420)] [{ name := "Paint", qty := 3 }] [] 0).rows := by
    norm_num [calculate_quote, quoteStep, dictGet]
    decide
  exact ⟨⟨hmem, by decide⟩,
    C3_unknown_item_zero [("Cement", 420)] [{ name := "Paint", qty := 3 }] [] 0
      { item := "Paint", qty := 3, unitPrice := 0, total := 0 } hmem (by decide)⟩

/-- C5: calculate_quote is deterministic and side-effect free: two calls
on identical inputs agree on every field of the result, and on the whole
result. -/
theorem C5_deterministic (r1 r2 : List (String × ℚ)) (s1 s2 : List Selection)
    (e1 e2 : List (String × ℚ)) (d1 d2 : ℚ)
    (hr : r1 = r2) (hs : s1 = s2) (he : e1 = e2) (hd : d1 = d2) :
    (calculate_quote r1 s1 e1 d1).rows = (calculate_quote r2 s2 e2 d2).rows
    ∧ (calculate_quote r1 s1 e1 d1).extras = (calculate_quote r2 s2 e2 d2).extras
    ∧ (calculate_quote r1 s1 e1 d1).subtotal = (calculate_quote r2 s2 e2 d2).subtotal
    ∧ (calculate_quote r1 s1 e1 d1).discount_amt
        = (calculate_quote r2 s2 e2 d2).discount_amt
    ∧ (calculate_quote r1 s1 e1 d1).taxable = (calculate_quote r2 s2 e2 d2).taxable
    ∧ (calculate_quote r1 s1 e1 d1).gst_amt = (calculate_quote r2 s2 e2 d2).gst_amt
    ∧ (calculate_quote r1 s1 e1 d1).grand_total
        = (calculate_quote r2 s2 e2 d2).grand_total
    ∧ calculate_quote r1 s1 e1 d1 = calculate_quote r2 s2 e2 d2 := by
  subst hr hs he hd
  exact ⟨rfl, rfl, rfl, rfl, rfl, rfl, rfl, rfl⟩

/-- C5 witness: two calls on a concrete identical input produce the very
same QuoteComputation. -/
theorem C5_deterministic_witness :
    calculate_quote [("Cement", 420)] [{ name := "Cement", qty := 10 }] [] 0
      = calculate_quote [("Cement", 420)] [{ name := "Cement", qty := 10 }] [] 0 :=
  (C5_deterministic [("Cement", 420)] [("Cement", 420)]
    [{ name := "Cement", qty := 10 }] [{ name := "Cement", qty := 10 }]
    [] [] 0 0 rfl rfl rfl rfl).2.2.2.2.2.2.2

/-- C6: calculate_quote is total over its declared input domain (it is a
Lean function, so it never raises), and degenerate inputs produce a
zero-valued QuoteComputation: with an empty selection list and empty
extras every field is zero, and with an all-zero catalog and empty extras
every monetary field is zero. -/
theorem C6_degenerate_zero (rates : List (String × ℚ)) (sels : List Selection)
    (extras : List (String × ℚ)) (dp : ℚ) :
    (sels = [] → extras = [] →
      calculate_quote rates sels extras dp =
        { rows := [], extras := [], subtotal := 0, discount_amt := 0, taxable := 0,
          gst_amt := 0, grand_total := 0 })
    ∧ ((∀ p ∈ rates, p.2 = 0) → extras = [] →
        (calculate_quote rates sels extras dp).subtotal = 0
        ∧ (calculate_quote rates sels extras dp).discount_amt = 0
        ∧ (calculate_quote rates sels extras dp).taxable = 0
        ∧ (calculate_quote rates sels extras dp).gst_amt = 0
        ∧ (calculate_quote rates sels extras dp).grand_total = 0) := by
  constructor
  · rintro rfl rfl
    simp only [calculate_quote, List.foldl_nil, List.map_nil, List.sum_nil]
    norm_num
  · intro hz he
    have hsub : (calculate_quote rates sels extras dp).subtotal = 0 := by
      rw [calculate_quote_subtotal, he]
      simp only [List.map_nil, List.sum_nil, add_zero]
      apply List.sum_eq_zero
      intro x hx
      obtain ⟨it, hit, rfl⟩ := List.mem_map.mp hx
      simp [lineTotal, dictGet_eq_zero rates it.name hz]
    have hd : (calculate_quote rates sels extras dp).discount_amt = 0 := by
      rw [calculate_quote_discount, hsub, zero_mul]
    have ht : (calculate_quote rates sels extras dp).taxable = 0 := by
      rw [calculate_quote_taxable, hsub, hd, sub_zero]
    have hg : (calculate_quote rates sels extras dp).gst_amt = 0 := by
      rw [calculate_quote_gst, ht, zero_mul, zero_div]
    have hgt : (calculate_quote rates sels extras dp).grand_total = 0 := by
      rw [calculate_quote_grand, ht, hg, add_zero]
    exact ⟨hsub, hd, ht, hg, hgt⟩

/-- C6 witness: the empty selection list with empty extras yields the
all-zero QuoteComputation, and the empty (hence all-zero) catalog with
empty extras yields zero monetary fields. -/
theorem C6_degenerate_zero_witness :
    (calculate_quote [("Cement", 420)] [] [] 5 =
      { rows := [], extras := [], subtotal := 0, discount_amt := 0, taxable := 0,
        gst_amt := 0, grand_total := 0 })
    ∧ ((calculate_quote [] [{ name := "Cement", qty := 7 }] [] 5).subtotal = 0
      ∧ (calculate_quote [] [{ name := "Cement", qty := 7 }] [] 5).grand_total = 0) :=
  ⟨(C6_degenerate_zero [("Cement", 420)] [] [] 5).1 rfl rfl,
    ((C6_degenerate_zero [] [{ name := "Cement", qty := 7 }] [] 5).2
      (by simp) rfl).1,
    ((C6_degenerate_zero [] [{ name := "Cement", qty := 7 }] [] 5).2
      (by simp) rfl).2.2.2.2⟩

/-- C7 counterexample: the claim lists the tax amount among the fields
that stay non-negative for non-negative inputs, but with a discount of
200 percent the taxable amount is -100 and the tax amount is -18, even
though the catalog price, the quantity and the (empty) extras are all
non-negative. -/
theorem C7_nonneg_counterexample :
    ((0:ℚ) ≤ 420 ∧ (0:ℚ) ≤ 1)
    ∧ (calculate_quote [("Cement", 100)] [{ name := "Cement", qty := 1 }] [] 200).gst_amt
        = -18
    ∧ ¬ (0 ≤ (calculate_quote [("Cement", 100)]
          [{ name := "Cement", qty := 1 }] [] 200).gst_amt) := by
  refine ⟨⟨by norm_num, by norm_num⟩, ?_, ?_⟩ <;>
    norm_num [calculate_quote, quoteStep, dictGet, GST_PERCENT]

/-- C7 (amended): for non-negative catalog prices, quantities and extra
charges, the unit prices, line totals and the subtotal are non-negative;
discount_amt is non-negative whenever the discount percentage is
non-negative; and taxable, the tax amount and grand_total are
non-negative whenever the discount percentage is at most 100 (so those
three, and with them the tax amount, can only go negative when the
discount percentage exceeds 100). -/
theorem C7_nonneg_amended (rates : List (String × ℚ)) (sels : List Selection)
    (extras : List (String × ℚ)) (dp : ℚ)
    (hr : ∀ p ∈ rates, 0 ≤ p.2) (hq : ∀ it ∈ sels, 0 ≤ it.qty)
    (he : ∀ e ∈ extras, 0 ≤ e.2) :
    (∀ r ∈ (calculate_quote rates sels extras dp).rows, 0 ≤ r.unitPrice ∧ 0 ≤ r.total)
    ∧ 0 ≤ (calculate_quote rates sels extras dp).subtotal
    ∧ (0 ≤ dp → 0 ≤ (calculate_quote rates sels extras dp).discount_amt)
    ∧ (dp ≤ 100 → 0 ≤ (calculate_quote rates sels extras dp).taxable
        ∧ 0 ≤ (calculate_quote rates sels extras dp).gst_amt
        ∧ 0 ≤ (calculate_quote rates sels extras dp).grand_total) := by
  have hsub : 0 ≤ (calculate_quote rates sels extras dp).subtotal := by
    rw [calculate_quote_subtotal]
    apply add_nonneg
    · apply List.sum_nonneg
      intro x hx
      obtain ⟨it, hit, rfl⟩ := List.mem_map.mp hx
      exact mul_nonneg (dictGet_nonneg rates it.name hr) (hq it hit)
    · apply List.sum_nonneg
      intro x hx
      obtain ⟨e, hee, rfl⟩ := List.mem_map.mp hx
      exact he e hee
  refine ⟨?_, hsub, ?_, ?_⟩
  · intro r hrr
    rw [calculate_quote_rows] at hrr
    obtain ⟨it, hit, rfl⟩ := List.mem_map.mp hrr
    have h1 : 0 ≤ dictGet rates it.name := dictGet_nonneg rates it.name hr
    have h2 : 0 ≤ it.qty := hq it hit
    exact ⟨by simpa [lineRow] using h1, by simpa [lineRow] using mul_nonneg h1 h2⟩
  · intro hdp
    rw [calculate_quote_discount]
    exact mul_nonneg hsub (div_nonneg hdp (by norm_num))
  · intro hdp
    have ht : 0 ≤ (calculate_quote rates sels extras dp).taxable := by
      rw [calculate_quote_taxable, calculate_quote_discount]
      have hrw : (calculate_quote rates sels extras dp).subtotal -
          (calculate_quote rates sels extras dp).subtotal * (dp / 100)
          = (calculate_quote rates sels extras dp).subtotal * ((100 - dp) / 100) := by
        ring
      rw [hrw]
      exact mul_nonneg hsub (div_nonneg (by linarith) (by norm_num))
    have hg : 0 ≤ (calculate_quote rates sels extras dp).gst_amt := by
      rw [calculate_quote_gst]
      exact div_nonneg (mul_nonneg ht (by norm_num [GST_PERCENT])) (by norm_num)
    refine ⟨ht, hg, ?_⟩
    rw [calculate_quote_grand]
    exact add_nonneg ht hg

/-- C7 witness: the amended claim at the concrete first worked example,
whose inputs are all non-negative and whose discount is 10 percent. -/
theorem C7_nonneg_amended_witness :
    ((∀ p ∈ [(("Cement" : String), (420:ℚ))], 0 ≤ p.2)
      ∧ (∀ it ∈ [({ name := "Cement", qty := 10 } : Selection)], 0 ≤ it.qty)
      ∧ (∀ e ∈ [(("Design Fee" : String), (1000:ℚ))], 0 ≤ e.2)
      ∧ (0:ℚ) ≤ 10 ∧ (10:ℚ) ≤ 100)
    ∧ ((∀ r ∈ (calculate_quote [("Cement", 420)] [{ name := "Cement", qty := 10 }]
          [("Design Fee", 1000)] 10).rows, 0 ≤ r.unitPrice ∧ 0 ≤ r.total)
      ∧ 0 ≤ (calculate_quote [("Cement", 420)] [{ name := "Cement", qty := 10 }]
          [("Design Fee", 1000)] 10).subtotal
      ∧ 0 ≤ (calculate_quote [("Cement", 420)] [{ name := "Cement", qty := 10 }]
          [("Design Fee", 1000)] 10).discount_amt
      ∧ 0 ≤ (calculate_quote [("Cement", 420)] [{ name := "Cement", qty := 10 }]
          [("Design Fee", 1000)] 10).taxable
      ∧ 0 ≤ (calculate_quote [("Cement", 420)] [{ name := "Cement", qty := 10 }]
          [("Design Fee", 1000)] 10).gst_amt
      ∧ 0 ≤ (calculate_quote [("Cement", 420)] [{ name := "Cement", qty := 10 }]
          [("Design Fee", 1000)] 10).grand_total) := by
  have h := C7_nonneg_amended [("Cement", 420)] [{ name := "Cement", qty := 10 }]
    [("Design Fee", 1000)] 10 (by decide) (by decide) (by decide)
  exact ⟨⟨by decide, by decide, by decide, by decide, by decide⟩,
    h.1, h.2.1, h.2.2.1 (by decide), (h.2.2.2 (by decide)).1,
    (h.2.2.2 (by decide)).2.1, (h.2.2.2 (by decide)).2.2⟩
